import Mathlib

/-!
Verification of the packet codec, opcode/status classification,
request/reply engine and stream transport of the NXT protocol client.

The embedding conventions used throughout:
* machine bytes (`u8`) are `Nat` values; byte buffers (`Vec<u8>`, `&[u8]`)
  are `List Nat`;
* Rust strings (`&str`, `String`) are modelled by their UTF-8 byte
  sequences (`List Nat`); `String::from_utf8` becomes a validity check
  (`utf8Valid`) on the byte list;
* methods taking `&mut self` become explicit state passing: a reader
  returns its `Result` together with the updated packet, because in the
  source the cursor mutation persists even when the surrounding call
  fails;
* Rust `Result<T, Error>` becomes `Except Error T`.
-/

/-- Device-reported status conditions (`DeviceError` in
`src/nxt/src/protocol.rs`), one constructor per recognised status byte. -/
inductive DeviceError
  | None
  | InProgress
  | QueueEmpty
  | NoMoreHandles
  | NoSpace
  | NoMoreFiles
  | EofExpected
  | Eof
  | NotALinearFile
  | FileNotFound
  | HandleAlreadyClosed
  | NoLinearSpace
  | Undefined
  | FileBusy
  | NoWriteBuffers
  | AppendNotPossible
  | FileIsFull
  | FileExists
  | ModuleNotFound
  | OutOfBounds
  | IllegalName
  | IllegalHandle
  | RequestFailed
  | UnknownCommand
  | InsanePacket
  | ValueOutOfRange
  | BusError
  | BufferFull
  | InvalidChannel
  | UnconfiguredChannel
  | NoActiveProgram
  | IllegalSize
  | IllegalQueueId
  | InvalidField
  | BadInputOrOutput
  | InsufficientMemory
  | BadArguments
  deriving DecidableEq, Fintype, Repr

/-- The discriminant (`#[repr(u8)]` value) of each `DeviceError` variant. -/
def DeviceError.toU8 : DeviceError → Nat
  | .None => 0x00
  | .InProgress => 0x20
  | .QueueEmpty => 0x40
  | .NoMoreHandles => 0x81
  | .NoSpace => 0x82
  | .NoMoreFiles => 0x83
  | .EofExpected => 0x84
  | .Eof => 0x85
  | .NotALinearFile => 0x86
  | .FileNotFound => 0x87
  | .HandleAlreadyClosed => 0x88
  | .NoLinearSpace => 0x89
  | .Undefined => 0x8A
  | .FileBusy => 0x8B
  | .NoWriteBuffers => 0x8C
  | .AppendNotPossible => 0x8D
  | .FileIsFull => 0x8E
  | .FileExists => 0x8F
  | .ModuleNotFound => 0x90
  | .OutOfBounds => 0x91
  | .IllegalName => 0x92
  | .IllegalHandle => 0x93
  | .RequestFailed => 0xBD
  | .UnknownCommand => 0xBE
  | .InsanePacket => 0xBF
  | .ValueOutOfRange => 0xC0
  | .BusError => 0xDD
  | .BufferFull => 0xDE
  | .InvalidChannel => 0xDF
  | .UnconfiguredChannel => 0xE0
  | .NoActiveProgram => 0xEC
  | .IllegalSize => 0xED
  | .IllegalQueueId => 0xEE
  | .InvalidField => 0xEF
  | .BadInputOrOutput => 0xF0
  | .InsufficientMemory => 0xFB
  | .BadArguments => 0xFF

/-- Embedding of `num_traits::FromPrimitive::from_u8` for `DeviceError`: the partial
inverse of the discriminant table. -/
def DeviceError.fromU8 : Nat → Option DeviceError
  | 0x00 => some .None
  | 0x20 => some .InProgress
  | 0x40 => some .QueueEmpty
  | 0x81 => some .NoMoreHandles
  | 0x82 => some .NoSpace
  | 0x83 => some .NoMoreFiles
  | 0x84 => some .EofExpected
  | 0x85 => some .Eof
  | 0x86 => some .NotALinearFile
  | 0x87 => some .FileNotFound
  | 0x88 => some .HandleAlreadyClosed
  | 0x89 => some .NoLinearSpace
  | 0x8A => some .Undefined
  | 0x8B => some .FileBusy
  | 0x8C => some .NoWriteBuffers
  | 0x8D => some .AppendNotPossible
  | 0x8E => some .FileIsFull
  | 0x8F => some .FileExists
  | 0x90 => some .ModuleNotFound
  | 0x91 => some .OutOfBounds
  | 0x92 => some .IllegalName
  | 0x93 => some .IllegalHandle
  | 0xBD => some .RequestFailed
  | 0xBE => some .UnknownCommand
  | 0xBF => some .InsanePacket
  | 0xC0 => some .ValueOutOfRange
  | 0xDD => some .BusError
  | 0xDE => some .BufferFull
  | 0xDF => some .InvalidChannel
  | 0xE0 => some .UnconfiguredChannel
  | 0xEC => some .NoActiveProgram
  | 0xED => some .IllegalSize
  | 0xEE => some .IllegalQueueId
  | 0xEF => some .InvalidField
  | 0xF0 => some .BadInputOrOutput
  | 0xFB => some .InsufficientMemory
  | 0xFF => some .BadArguments
  | _ => none

/-- The crate-wide error type (`Error` in `src/nxt/src/error.rs`),
restricted to the constructors reachable from the embedded code. -/
inductive Error
  | NoBrick
  | Device (e : DeviceError)
  | Parse (msg : String)
  | Serialise (msg : String)
  | Io
  | Write
  | ReplyMismatch
  | InvalidString
  | IntOutOfRange
  deriving DecidableEq, Repr

deriving instance DecidableEq for Except

/-- Message opcodes (`Opcode` in `src/nxt/src/protocol.rs`). -/
inductive Opcode
  | DirectStartProgram
  | DirectStopProgram
  | DirectPlaySoundFile
  | DirectPlayTone
  | DirectSetOutState
  | DirectSetInMode
  | DirectGetOutState
  | DirectGetInVals
  | DirectResetInVal
  | DirectMessageWrite
  | DirectResetPosition
  | DirectGetBattLevel
  | DirectStopSound
  | DirectKeepAlive
  | DirectLsGetStatus
  | DirectLsWrite
  | DirectLsRead
  | DirectGetCurrProgram
  | DirectGetButtonState
  | DirectMessageRead
  | DirectDatalogRead
  | DirectDatalogSetTimes
  | DirectBtGetContactCount
  | DirectBtGetContactName
  | DirectBtGetConnCount
  | DirectBtGetConnName
  | DirectSetProperty
  | DirectGetProperty
  | DirectUpdateResetCount
  | SystemOpenread
  | SystemOpenwrite
  | SystemRead
  | SystemWrite
  | SystemClose
  | SystemDelete
  | SystemFindfirst
  | SystemFindnext
  | SystemVersions
  | SystemOpenwritelinear
  | SystemOpenreadlinear
  | SystemOpenwritedata
  | SystemOpenappenddata
  | SystemCropdatafile
  | SystemFindfirstmodule
  | SystemFindnextmodule
  | SystemClosemodhandle
  | SystemIomapread
  | SystemIomapwrite
  | SystemBootcmd
  | SystemSetbrickname
  | SystemBtgetaddr
  | SystemDeviceinfo
  | SystemDeleteuserflash
  | SystemPollcmdlen
  | SystemPollcmd
  | SystemRenamefile
  | SystemBtfactoryreset
  | SystemResizeDataFile
  | SystemSeekFromStart
  | SystemSeekFromCurrent
  | SystemSeekFromEnd
  deriving DecidableEq, Fintype, Repr

/-- The discriminant (`#[repr(u8)]` value, i.e. `self as u8`) of each
`Opcode` variant. -/
def Opcode.toU8 : Opcode → Nat
  | .DirectStartProgram => 0x00
  | .DirectStopProgram => 0x01
  | .DirectPlaySoundFile => 0x02
  | .DirectPlayTone => 0x03
  | .DirectSetOutState => 0x04
  | .DirectSetInMode => 0x05
  | .DirectGetOutState => 0x06
  | .DirectGetInVals => 0x07
  | .DirectResetInVal => 0x08
  | .DirectMessageWrite => 0x09
  | .DirectResetPosition => 0x0A
  | .DirectGetBattLevel => 0x0B
  | .DirectStopSound => 0x0C
  | .DirectKeepAlive => 0x0D
  | .DirectLsGetStatus => 0x0E
  | .DirectLsWrite => 0x0F
  | .DirectLsRead => 0x10
  | .DirectGetCurrProgram => 0x11
  | .DirectGetButtonState => 0x12
  | .DirectMessageRead => 0x13
  | .DirectDatalogRead => 0x19
  | .DirectDatalogSetTimes => 0x1A
  | .DirectBtGetContactCount => 0x1B
  | .DirectBtGetContactName => 0x1C
  | .DirectBtGetConnCount => 0x1D
  | .DirectBtGetConnName => 0x1E
  | .DirectSetProperty => 0x1F
  | .DirectGetProperty => 0x20
  | .DirectUpdateResetCount => 0x21
  | .SystemOpenread => 0x80
  | .SystemOpenwrite => 0x81
  | .SystemRead => 0x82
  | .SystemWrite => 0x83
  | .SystemClose => 0x84
  | .SystemDelete => 0x85
  | .SystemFindfirst => 0x86
  | .SystemFindnext => 0x87
  | .SystemVersions => 0x88
  | .SystemOpenwritelinear => 0x89
  | .SystemOpenreadlinear => 0x8A
  | .SystemOpenwritedata => 0x8B
  | .SystemOpenappenddata => 0x8C
  | .SystemCropdatafile => 0x8D
  | .SystemFindfirstmodule => 0x90
  | .SystemFindnextmodule => 0x91
  | .SystemClosemodhandle => 0x92
  | .SystemIomapread => 0x94
  | .SystemIomapwrite => 0x95
  | .SystemBootcmd => 0x97
  | .SystemSetbrickname => 0x98
  | .SystemBtgetaddr => 0x9A
  | .SystemDeviceinfo => 0x9B
  | .SystemDeleteuserflash => 0xA0
  | .SystemPollcmdlen => 0xA1
  | .SystemPollcmd => 0xA2
  | .SystemRenamefile => 0xA3
  | .SystemBtfactoryreset => 0xA4
  | .SystemResizeDataFile => 0xD0
  | .SystemSeekFromStart => 0xD1
  | .SystemSeekFromCurrent => 0xD2
  | .SystemSeekFromEnd => 0xD3

/-- Embedding of `num_traits::FromPrimitive::from_u8` for `Opcode`. -/
def Opcode.fromU8 : Nat → Option Opcode
  | 0x00 => some .DirectStartProgram
  | 0x01 => some .DirectStopProgram
  | 0x02 => some .DirectPlaySoundFile
  | 0x03 => some .DirectPlayTone
  | 0x04 => some .DirectSetOutState
  | 0x05 => some .DirectSetInMode
  | 0x06 => some .DirectGetOutState
  | 0x07 => some .DirectGetInVals
  | 0x08 => some .DirectResetInVal
  | 0x09 => some .DirectMessageWrite
  | 0x0A => some .DirectResetPosition
  | 0x0B => some .DirectGetBattLevel
  | 0x0C => some .DirectStopSound
  | 0x0D => some .DirectKeepAlive
  | 0x0E => some .DirectLsGetStatus
  | 0x0F => some .DirectLsWrite
  | 0x10 => some .DirectLsRead
  | 0x11 => some .DirectGetCurrProgram
  | 0x12 => some .DirectGetButtonState
  | 0x13 => some .DirectMessageRead
  | 0x19 => some .DirectDatalogRead
  | 0x1A => some .DirectDatalogSetTimes
  | 0x1B => some .DirectBtGetContactCount
  | 0x1C => some .DirectBtGetContactName
  | 0x1D => some .DirectBtGetConnCount
  | 0x1E => some .DirectBtGetConnName
  | 0x1F => some .DirectSetProperty
  | 0x20 => some .DirectGetProperty
  | 0x21 => some .DirectUpdateResetCount
  | 0x80 => some .SystemOpenread
  | 0x81 => some .SystemOpenwrite
  | 0x82 => some .SystemRead
  | 0x83 => some .SystemWrite
  | 0x84 => some .SystemClose
  | 0x85 => some .SystemDelete
  | 0x86 => some .SystemFindfirst
  | 0x87 => some .SystemFindnext
  | 0x88 => some .SystemVersions
  | 0x89 => some .SystemOpenwritelinear
  | 0x8A => some .SystemOpenreadlinear
  | 0x8B => some .SystemOpenwritedata
  | 0x8C => some .SystemOpenappenddata
  | 0x8D => some .SystemCropdatafile
  | 0x90 => some .SystemFindfirstmodule
  | 0x91 => some .SystemFindnextmodule
  | 0x92 => some .SystemClosemodhandle
  | 0x94 => some .SystemIomapread
  | 0x95 => some .SystemIomapwrite
  | 0x97 => some .SystemBootcmd
  | 0x98 => some .SystemSetbrickname
  | 0x9A => some .SystemBtgetaddr
  | 0x9B => some .SystemDeviceinfo
  | 0xA0 => some .SystemDeleteuserflash
  | 0xA1 => some .SystemPollcmdlen
  | 0xA2 => some .SystemPollcmd
  | 0xA3 => some .SystemRenamefile
  | 0xA4 => some .SystemBtfactoryreset
  | 0xD0 => some .SystemResizeDataFile
  | 0xD1 => some .SystemSeekFromStart
  | 0xD2 => some .SystemSeekFromCurrent
  | 0xD3 => some .SystemSeekFromEnd
  | _ => none

/-- Embedding of `Opcode::is_system`: `(self as u8) & 0x80 != 0`. -/
def Opcode.is_system (op : Opcode) : Bool :=
  (op.toU8 &&& 0x80) != 0

/-- Classification of opcode variants by their declared command class:
`true` exactly for the constructors whose name carries the `System`
designation in the source enumeration, `false` for the `Direct` ones. -/
def Opcode.isSystemVariant : Opcode → Bool
  | .SystemOpenread | .SystemOpenwrite | .SystemRead | .SystemWrite
  | .SystemClose | .SystemDelete | .SystemFindfirst | .SystemFindnext
  | .SystemVersions | .SystemOpenwritelinear | .SystemOpenreadlinear
  | .SystemOpenwritedata | .SystemOpenappenddata | .SystemCropdatafile
  | .SystemFindfirstmodule | .SystemFindnextmodule | .SystemClosemodhandle
  | .SystemIomapread | .SystemIomapwrite | .SystemBootcmd
  | .SystemSetbrickname | .SystemBtgetaddr | .SystemDeviceinfo
  | .SystemDeleteuserflash | .SystemPollcmdlen | .SystemPollcmd
  | .SystemRenamefile | .SystemBtfactoryreset | .SystemResizeDataFile
  | .SystemSeekFromStart | .SystemSeekFromCurrent | .SystemSeekFromEnd => true
  | _ => false

/-- Packet type tags (`PacketType` in `src/nxt/src/protocol.rs`). -/
inductive PacketType
  | Direct
  | System
  | Reply
  | DirectReplyNotRequired
  | SystemReplyNotRequired
  deriving DecidableEq, Fintype, Repr

/-- Discriminants of `PacketType` (`Direct = 0x00`, `System = 0x01`,
`Reply = 0x02`, `DirectReplyNotRequired = 0x80`,
`SystemReplyNotRequired = 0x80 | 0x01`). -/
def PacketType.toU8 : PacketType → Nat
  | .Direct => 0x00
  | .System => 0x01
  | .Reply => 0x02
  | .DirectReplyNotRequired => 0x80
  | .SystemReplyNotRequired => 0x81

/-- Embedding of `num_traits::FromPrimitive::from_u8` for `PacketType`. -/
def PacketType.fromU8 : Nat → Option PacketType
  | 0x00 => some .Direct
  | 0x01 => some .System
  | 0x02 => some .Reply
  | 0x80 => some .DirectReplyNotRequired
  | 0x81 => some .SystemReplyNotRequired
  | _ => none

/-- Byte-level validity of UTF-8, exactly the acceptance condition of
Rust's `String::from_utf8` (continuation bytes in `0x80..=0xBF`, no
overlong forms, no surrogates, maximum `U+10FFFF`). -/
def utf8Valid : List Nat → Bool
  | [] => true
  | b :: rest =>
    if b ≤ 0x7F then utf8Valid rest
    else if 0xC2 ≤ b ∧ b ≤ 0xDF then
      match rest with
      | c :: rest2 => decide (0x80 ≤ c ∧ c ≤ 0xBF) && utf8Valid rest2
      | [] => false
    else if 0xE0 ≤ b ∧ b ≤ 0xEF then
      match rest with
      | c :: d :: rest2 =>
        let lo := if b = 0xE0 then 0xA0 else 0x80
        let hi := if b = 0xED then 0x9F else 0xBF
        decide (lo ≤ c ∧ c ≤ hi) && decide (0x80 ≤ d ∧ d ≤ 0xBF)
          && utf8Valid rest2
      | _ => false
    else if 0xF0 ≤ b ∧ b ≤ 0xF4 then
      match rest with
      | c :: d :: e :: rest2 =>
        let lo := if b = 0xF0 then 0x90 else 0x80
        let hi := if b = 0xF4 then 0x8F else 0xBF
        decide (lo ≤ c ∧ c ≤ hi) && decide (0x80 ≤ d ∧ d ≤ 0xBF)
          && decide (0x80 ≤ e ∧ e ≤ 0xBF) && utf8Valid rest2
      | _ => false
    else false

/-- A byte string is ASCII (`str::is_ascii`) when every byte is below
`0x80`. -/
def isAsciiList (s : List Nat) : Bool :=
  s.all (fun b => b ≤ 0x7F)

/-- Strip every trailing `0x00` byte, as the `while ret.ends_with(&[0x00])
{ ret = ret.strip_suffix(&[0x00]).unwrap() }` loop of
`Packet::read_string` does. -/
def stripTrailingZeros (l : List Nat) : List Nat :=
  (l.reverse.dropWhile (fun b => b == 0)).reverse

/-- Embedding of `u16::from_le_bytes([b0, b1])` on byte values. -/
def u16FromLeBytes (b0 b1 : Nat) : Nat :=
  b0 + 256 * b1

/-- Length of the filename field (`FILENAME_LEN`), terminator included. -/
def FILENAME_LEN : Nat := 20

/-- Structure `Packet` from `src/nxt/src/protocol.rs`: type tag, opcode, payload
buffer and the parse cursor `data_offset`. -/
structure Packet where
  typ : PacketType
  opcode : Opcode
  data : List Nat
  data_offset : Nat
  deriving DecidableEq, Repr

/-- Embedding of `Packet::new`: the type tag is `System` or `Direct` according to
`Opcode::is_system`, the payload starts empty. -/
def Packet.new (opcode : Opcode) : Packet :=
  { typ := if opcode.is_system then .System else .Direct
    opcode := opcode
    data := []
    data_offset := 0 }

/-- Embedding of `Packet::read_u8`: fetch the byte at the cursor (end-of-input parse
error if none) and advance the cursor by one. -/
def Packet.read_u8 (p : Packet) : Except Error Nat × Packet :=
  match p.data.get? p.data_offset with
  | some b0 => (.ok b0, { p with data_offset := p.data_offset + 1 })
  | none => (.error (.Parse "Reached end of input"), p)

/-- Embedding of `Packet::read_bool`: fetch one byte and decode it as `b0 != 0`. -/
def Packet.read_bool (p : Packet) : Except Error Bool × Packet :=
  match p.data.get? p.data_offset with
  | some b0 => (.ok (b0 != 0), { p with data_offset := p.data_offset + 1 })
  | none => (.error (.Parse "Reached end of input"), p)

/-- Embedding of `Packet::read_i8`: fetch one byte and reinterpret it as a signed
byte (`i8::from_le_bytes`). -/
def Packet.read_i8 (p : Packet) : Except Error Int × Packet :=
  match p.data.get? p.data_offset with
  | some b0 =>
    (.ok (if b0 < 128 then (b0 : Int) else (b0 : Int) - 256),
      { p with data_offset := p.data_offset + 1 })
  | none => (.error (.Parse "Reached end of input"), p)

/-- Embedding of `Packet::read_u16`: two successive `read_u8` calls, then
`u16::from_le_bytes`.  A failure of the second call leaves the first
byte consumed, exactly as the `?` operator does on `&mut self`. -/
def Packet.read_u16 (p : Packet) : Except Error Nat × Packet :=
  match p.read_u8 with
  | (.ok b0, p1) =>
    match p1.read_u8 with
    | (.ok b1, p2) => (.ok (u16FromLeBytes b0 b1), p2)
    | (.error e, p2) => (.error e, p2)
  | (.error e, p1) => (.error e, p1)

/-- Embedding of `Packet::read_i16`: two successive `read_u8` calls, then
`i16::from_le_bytes`. -/
def Packet.read_i16 (p : Packet) : Except Error Int × Packet :=
  match p.read_u8 with
  | (.ok b0, p1) =>
    match p1.read_u8 with
    | (.ok b1, p2) =>
      let n := u16FromLeBytes b0 b1
      (.ok (if n < 32768 then (n : Int) else (n : Int) - 65536), p2)
    | (.error e, p2) => (.error e, p2)
  | (.error e, p1) => (.error e, p1)

/-- Embedding of `Packet::read_u32`: four successive `read_u8` calls, then
`u32::from_le_bytes`. -/
def Packet.read_u32 (p : Packet) : Except Error Nat × Packet :=
  match p.read_u8 with
  | (.ok b0, p1) =>
    match p1.read_u8 with
    | (.ok b1, p2) =>
      match p2.read_u8 with
      | (.ok b2, p3) =>
        match p3.read_u8 with
        | (.ok b3, p4) =>
          (.ok (b0 + 256 * b1 + 65536 * b2 + 16777216 * b3), p4)
        | (.error e, p4) => (.error e, p4)
      | (.error e, p3) => (.error e, p3)
    | (.error e, p2) => (.error e, p2)
  | (.error e, p1) => (.error e, p1)

/-- Embedding of `Packet::read_i32`: four successive `read_u8` calls, then
`i32::from_le_bytes`. -/
def Packet.read_i32 (p : Packet) : Except Error Int × Packet :=
  match p.read_u8 with
  | (.ok b0, p1) =>
    match p1.read_u8 with
    | (.ok b1, p2) =>
      match p2.read_u8 with
      | (.ok b2, p3) =>
        match p3.read_u8 with
        | (.ok b3, p4) =>
          let n := b0 + 256 * b1 + 65536 * b2 + 16777216 * b3
          (.ok (if n < 2147483648 then (n : Int) else (n : Int) - 4294967296),
            p4)
        | (.error e, p4) => (.error e, p4)
      | (.error e, p3) => (.error e, p3)
    | (.error e, p2) => (.error e, p2)
  | (.error e, p1) => (.error e, p1)

/-- Embedding of `Packet::read_slice`: up-front bounds check (`data_offset + len >
data.len()` fails without touching the cursor), then return the `len`
bytes at the cursor and advance it by `len`. -/
def Packet.read_slice (p : Packet) (len : Nat) : Except Error (List Nat) × Packet :=
  if p.data.length < p.data_offset + len then
    (.error (.Parse "Requested slice too long"), p)
  else
    (.ok ((p.data.drop p.data_offset).take len),
      { p with data_offset := p.data_offset + len })

/-- Embedding of `Packet::read_filename`: up-front bounds check against
`FILENAME_LEN`, consume 20 bytes, keep the bytes strictly before the
first `0x00` (`take_while(|&ch| ch != 0)`), then decode as UTF-8. -/
def Packet.read_filename (p : Packet) : Except Error (List Nat) × Packet :=
  if p.data.length < p.data_offset + FILENAME_LEN then
    (.error (.Parse "Requested slice too long"), p)
  else
    let p2 := { p with data_offset := p.data_offset + FILENAME_LEN }
    let fname := ((p.data.drop p.data_offset).take FILENAME_LEN).takeWhile
      (fun ch => ch != 0)
    if utf8Valid fname then (.ok fname, p2) else (.error .InvalidString, p2)

/-- Embedding of `Packet::read_string`: `read_slice(max_len)`, strip all trailing
`0x00` bytes, then decode as UTF-8. -/
def Packet.read_string (p : Packet) (max_len : Nat) : Except Error (List Nat) × Packet :=
  match p.read_slice max_len with
  | (.ok ret, p2) =>
    let ret := stripTrailingZeros ret
    if utf8Valid ret then (.ok ret, p2) else (.error .InvalidString, p2)
  | (.error e, p2) => (.error e, p2)

/-- Embedding of `Packet::push_filename`: length check (`name.len() + 1 >
FILENAME_LEN`), ASCII check, then append the name's bytes and
`FILENAME_LEN - name.len()` zero bytes. -/
def Packet.push_filename (p : Packet) (name : List Nat) : Except Error Unit × Packet :=
  if FILENAME_LEN < name.length + 1 then
    (.error (.Serialise "Filename too long"), p)
  else if ¬ isAsciiList name then
    (.error (.Serialise "Filename must be ascii"), p)
  else
    (.ok (), { p with
      data := p.data ++ name ++ List.replicate (FILENAME_LEN - name.length) 0 })

/-- Embedding of `Packet::push_str`: length check (`s.len() + 1 > max_len`), then
append the bytes of `s` and `max_len - s.len()` zero bytes. -/
def Packet.push_str (p : Packet) (s : List Nat) (max_len : Nat) : Except Error Unit × Packet :=
  if max_len < s.length + 1 then
    (.error (.Serialise "String too long"), p)
  else
    (.ok (), { p with
      data := p.data ++ s ++ List.replicate (max_len - s.length) 0 })

/-- Embedding of `Packet::push_bool`: append one byte, `1` for `true` and `0` for
`false` (`bool::into` on `u8`). -/
def Packet.push_bool (p : Packet) (val : Bool) : Packet :=
  { p with data := p.data ++ [if val then 1 else 0] }

/-- Embedding of `Packet::push_u8`: append one byte. -/
def Packet.push_u8 (p : Packet) (val : Nat) : Packet :=
  { p with data := p.data ++ [val % 256] }

/-- Embedding of `DeviceError::error`: `None` maps to success, every other variant
to the `Error::Device` failure carrying that variant. -/
def DeviceError.error : DeviceError → Except Error Unit
  | .None => .ok ()
  | e => .error (.Device e)

/-- Embedding of `Packet::check_status`: read one byte, recognise it via
`DeviceError::try_from` (unrecognised bytes give the
`Parse "Invalid status"` failure), then classify it with
`DeviceError::error`. -/
def Packet.check_status (p : Packet) : Except Error Unit × Packet :=
  match p.read_u8 with
  | (.ok status, p1) =>
    match DeviceError.fromU8 status with
    | some st => (st.error, p1)
    | none => (.error (.Parse "Invalid status"), p1)
  | (.error e, p1) => (.error e, p1)

/-- Embedding of `Packet::parse`: start from a packet whose payload is the whole
received buffer and whose header fields are the (valid) placeholders
obtained from byte `0`, read the type byte and the opcode byte, and
validate both against the closed tables.  On success the cursor sits at
offset 2, just past the header. -/
def Packet.parse (buf : List Nat) : Except Error Packet :=
  let p : Packet := { typ := .Direct, opcode := .DirectStartProgram,
                      data := buf, data_offset := 0 }
  match p.read_u8 with
  | (.error e, _) => .error e
  | (.ok tb, p1) =>
    match PacketType.fromU8 tb with
    | none => .error (.Parse "Invalid packet type")
    | some ty =>
      match p1.read_u8 with
      | (.error e, _) => .error e
      | (.ok ob, p2) =>
        match Opcode.fromU8 ob with
        | none => .error (.Parse "Invalid opcode")
        | some oc => .ok { p2 with typ := ty, opcode := oc }

/-- The byte sequence `Packet::read_filename` decodes on the in-bounds
path: the 20-byte window at the cursor, truncated at the first `0x00`. -/
def filenameBytes (p : Packet) : List Nat :=
  ((p.data.drop p.data_offset).take FILENAME_LEN).takeWhile (fun ch => ch != 0)

/-- A reply packet whose cursor sits on the single status byte `b`, the
shape on which `Packet::check_status` operates. -/
def statusPacket (b : Nat) : Packet :=
  { typ := .Reply, opcode := .DirectGetBattLevel, data := [b], data_offset := 0 }

/-- Embedding of `Nxt::recv` from `src/src/lib.rs`, with the transport abstracted:
`reply` is the byte buffer that the bulk-in transfer filled.  The reply
is parsed, its status byte is consumed and validated by
`Packet::check_status`, and only then is the reply opcode compared with
the expected one (`ReplyMismatch` on disagreement). -/
def Nxt.recv (reply : List Nat) (opcode : Opcode) : Except Error Packet :=
  match Packet.parse reply with
  | .error e => .error e
  | .ok p =>
    match p.check_status with
    | (.error e, _) => .error e
    | (.ok _, p2) =>
      if p2.opcode = opcode then .ok p2 else .error .ReplyMismatch

/-- Embedding of `Nxt::send_recv` from `src/src/lib.rs`, with a successfully
transmitted request: transmit `pkt`, then `recv` one reply, expecting
the request's own opcode. -/
def Nxt.send_recv (pkt : Packet) (reply : List Nat) : Except Error Packet :=
  Nxt.recv reply pkt.opcode

/-- Embedding of `tokio::io::AsyncReadExt::read_exact` over a byte stream modelled as
the list of bytes the peer will deliver: take exactly `n` bytes, or fail
with an I/O error when the stream ends first. -/
def readExact (s : List Nat) (n : Nat) : Except Error (List Nat) × List Nat :=
  if s.length < n then (.error .Io, s.drop n)
  else (.ok (s.take n), s.drop n)

/-- Embedding of `Bluetooth::recv` from `src/nxt/src/socket/bluetooth.rs`: read
exactly 2 bytes, decode them as a little-endian `u16` expected length,
fail with `Parse "Data too long for buffer"` when that length exceeds
the caller's buffer, otherwise read exactly that many payload bytes and
return them.  The second component is the rest of the stream. -/
def Bluetooth.recv (s : List Nat) (bufLen : Nat) : Except Error (List Nat) × List Nat :=
  match readExact s 2 with
  | (.ok [b0, b1], s2) =>
    let n := u16FromLeBytes b0 b1
    if bufLen < n then (.error (.Parse "Data too long for buffer"), s2)
    else
      match readExact s2 n with
      | (.ok payload, s3) => (.ok payload, s3)
      | (.error e, s3) => (.error e, s3)
  | (.ok _, s2) => (.error .Io, s2)
  | (.error e, s2) => (.error e, s2)

lemma opcode_fromU8_toU8 : ∀ oc : Opcode, Opcode.fromU8 oc.toU8 = some oc := by
  decide

lemma packetType_fromU8_toU8 : ∀ t : PacketType, PacketType.fromU8 t.toU8 = some t := by
  decide

lemma deviceError_fromU8_toU8 : ∀ e : DeviceError, DeviceError.fromU8 e.toU8 = some e := by
  decide

lemma DeviceError.error_of_ne_none (e : DeviceError) (h : e ≠ .None) :
    e.error = .error (.Device e) := by
  cases e <;> simp_all [DeviceError.error]

lemma read_u8_of_lt (p : Packet) (h : p.data_offset < p.data.length) :
    p.read_u8 = (.ok (p.data.get ⟨p.data_offset, h⟩),
      { p with data_offset := p.data_offset + 1 }) := by
  simp [Packet.read_u8, List.getElem?_eq_getElem h]

lemma read_u8_of_ge (p : Packet) (h : p.data.length ≤ p.data_offset) :
    p.read_u8 = (.error (.Parse "Reached end of input"), p) := by
  simp [Packet.read_u8, List.getElem?_eq_none h]

lemma dropWhile_zero_replicate (k : Nat) (t : List Nat) :
    List.dropWhile (fun b => b == 0) (List.replicate k 0 ++ t) =
      List.dropWhile (fun b => b == 0) t := by
  induction k with
  | zero => simp
  | succ n ih => simp [List.replicate_succ, List.dropWhile_cons, ih]

lemma dropWhile_zero_replicate_nil (k : Nat) :
    List.dropWhile (fun b => b == 0) (List.replicate k 0) = [] := by
  have h := dropWhile_zero_replicate k []
  simp only [List.append_nil, List.dropWhile_nil] at h
  exact h

lemma stripTrailingZeros_append_replicate (s : List Nat) (k : Nat)
    (h : s.getLastD 1 ≠ 0) :
    stripTrailingZeros (s ++ List.replicate k 0) = s := by
  rcases List.eq_nil_or_concat s with rfl | ⟨L, a, rfl⟩
  · simp [stripTrailingZeros, List.reverse_replicate, dropWhile_zero_replicate_nil]
  · have ha : a ≠ 0 := by simpa [List.getLastD_concat] using h
    have hb : (a == 0) = false := by simpa using ha
    simp [stripTrailingZeros, List.reverse_append, List.reverse_replicate,
      dropWhile_zero_replicate, List.dropWhile_cons, hb]

lemma Nxt.recv_cons (t : PacketType) (oc : Opcode) (s : Nat) (rest : List Nat)
    (req : Opcode) :
    Nxt.recv (t.toU8 :: oc.toU8 :: s :: rest) req =
      match DeviceError.fromU8 s with
      | none => .error (.Parse "Invalid status")
      | some st =>
        match st.error with
        | .error e => .error e
        | .ok _ =>
          if oc = req then
            .ok { typ := t, opcode := oc, data := t.toU8 :: oc.toU8 :: s :: rest,
                  data_offset := 3 }
          else .error .ReplyMismatch := by
  rcases hs : DeviceError.fromU8 s with _ | st
  · cases t <;>
      simp [Nxt.recv, Packet.parse, Packet.read_u8, Packet.check_status,
        PacketType.toU8, PacketType.fromU8, opcode_fromU8_toU8, hs]
  · rcases he : st.error with e | u
    · cases t <;>
        simp [Nxt.recv, Packet.parse, Packet.read_u8, Packet.check_status,
          PacketType.toU8, PacketType.fromU8, opcode_fromU8_toU8, hs, he]
    · cases t <;>
        simp [Nxt.recv, Packet.parse, Packet.read_u8, Packet.check_status,
          PacketType.toU8, PacketType.fromU8, opcode_fromU8_toU8, hs, he]

/-- C1: for every opcode in the closed enumeration, `is_system` returns
`true` iff bit `0x80` of the opcode's numeric value is set; it is
`false` for every `Direct` command variant (numeric values `0x00`
through `0x21`) and `true` for every `System` call variant (numeric
values `0x80` through `0xD3`). -/
theorem c1_is_system_iff_high_bit :
    ∀ op : Opcode,
      op.is_system = ((op.toU8 &&& 0x80) != 0) ∧
      op.is_system = op.isSystemVariant ∧
      (if op.isSystemVariant then 0x80 ≤ op.toU8 ∧ op.toU8 ≤ 0xD3
       else op.toU8 ≤ 0x21) := by
  decide

/-- C4: status classification is total and three-way.  Every status byte
falls into exactly one bucket: `0x00` is success, a recognised non-zero
byte is the corresponding named device error, an unrecognised byte is
the `Parse "Invalid status"` failure.  In particular `0x87` decodes to
file-not-found and `0x99` to the parse failure, which differs from every
named device error. -/
theorem c4_status_classification :
    (∀ b : Fin 256,
      ((statusPacket b.val).check_status.1 = .ok () ∧ b.val = 0) ∨
      (∃ e : DeviceError, e ≠ .None ∧ DeviceError.fromU8 b.val = some e ∧
        (statusPacket b.val).check_status.1 = .error (.Device e)) ∨
      (DeviceError.fromU8 b.val = none ∧
        (statusPacket b.val).check_status.1 =
          .error (.Parse "Invalid status"))) ∧
    (statusPacket 0x00).check_status.1 = .ok () ∧
    (statusPacket 0x87).check_status.1 = .error (.Device .FileNotFound) ∧
    (statusPacket 0x99).check_status.1 = .error (.Parse "Invalid status") ∧
    (∀ e : DeviceError, Error.Parse "Invalid status" ≠ Error.Device e) := by
  set_option maxRecDepth 10000 in decide

/-- C10: `read_bool` consumes one byte and decodes every nonzero byte as
`true` (byte `0x02` included) and `0x00` as `false`, never failing when
a byte is available; `push_bool` only ever emits `1` or `0`, and a
pushed boolean round-trips through `read_bool`. -/
theorem c10_read_bool_nonzero (p q : Packet) (b : Nat) (v : Bool)
    (ty : PacketType) (op : Opcode)
    (hb : p.data[p.data_offset]? = some b) :
    p.read_bool = (.ok (b != 0), { p with data_offset := p.data_offset + 1 }) ∧
    (q.push_bool v).data = q.data ++ [if v then 1 else 0] ∧
    (Packet.read_bool
      { typ := ty, opcode := op, data := (q.push_bool v).data,
        data_offset := q.data.length }).1 = .ok v ∧
    (Packet.read_bool
      { typ := ty, opcode := op, data := [2], data_offset := 0 }).1 =
      .ok true := by
  refine ⟨by simp [Packet.read_bool, hb], rfl, ?_, rfl⟩
  have hget : ((q.push_bool v).data)[q.data.length]? =
      some (if v then 1 else 0) := by
    simp [Packet.push_bool, List.getElem?_concat_length]
  cases v <;> simp [Packet.read_bool, hget]

/-- Witness for C10 at a concrete packet: the byte `0x02` is available,
is decoded as `true`, and a pushed `true` round-trips. -/
theorem c10_read_bool_nonzero_witness :
    (Packet.read_bool
      { typ := .Reply, opcode := .DirectGetInVals, data := [2],
        data_offset := 0 }) =
      (.ok true,
        { typ := .Reply, opcode := .DirectGetInVals, data := [2],
          data_offset := 1 }) ∧
    ((Packet.new .DirectPlaySoundFile).push_bool true).data = [1] := by
  have h := c10_read_bool_nonzero
    { typ := .Reply, opcode := .DirectGetInVals, data := [2], data_offset := 0 }
    (Packet.new .DirectPlaySoundFile) 2 true .Reply .DirectGetInVals (by decide)
  exact ⟨h.1, h.2.1⟩

/-- C2: `push_filename` with an ASCII name whose byte length plus one
terminator fits in 20 bytes appends exactly 20 bytes — the name followed
by NUL padding — and succeeds; a name whose length plus terminator
exceeds 20 bytes fails with a serialisation error, as does a non-ASCII
name. -/
theorem c2_push_filename (p q r : Packet) (good long bad : List Nat)
    (hgood_len : good.length + 1 ≤ 20)
    (hgood_ascii : isAsciiList good = true)
    (hlong : 20 < long.length + 1)
    (hbad_len : bad.length + 1 ≤ 20)
    (hbad : isAsciiList bad = false) :
    p.push_filename good =
      (.ok (), { p with
        data := p.data ++ good ++ List.replicate (20 - good.length) 0 }) ∧
    (p.push_filename good).2.data.length = p.data.length + 20 ∧
    q.push_filename long = (.error (.Serialise "Filename too long"), q) ∧
    r.push_filename bad = (.error (.Serialise "Filename must be ascii"), r) := by
  have hnot : ¬ (20 < good.length + 1) := by omega
  have hnot2 : ¬ (20 < bad.length + 1) := by omega
  refine ⟨?_, ?_, ?_, ?_⟩
  · simp [Packet.push_filename, FILENAME_LEN, hnot, hgood_ascii]
  · simp [Packet.push_filename, FILENAME_LEN, hnot, hgood_ascii]
    omega
  · simp [Packet.push_filename, FILENAME_LEN]
    omega
  · simp [Packet.push_filename, FILENAME_LEN, hnot2, hbad]

/-- Witness for C2: pushing the 6-byte name `a_file` onto a fresh packet
yields exactly the 20 bytes `a_file` plus 14 NULs; a 20-character name
and a non-ASCII name are rejected. -/
theorem c2_push_filename_witness :
    ((Packet.new .DirectStartProgram).push_filename
        [97, 95, 102, 105, 108, 101]).2.data =
      [97, 95, 102, 105, 108, 101] ++ List.replicate 14 0 ∧
    ((Packet.new .DirectStartProgram).push_filename
        (List.replicate 20 97)).1 = .error (.Serialise "Filename too long") ∧
    ((Packet.new .DirectStartProgram).push_filename [0xC3]).1 =
      .error (.Serialise "Filename must be ascii") := by
  have h := c2_push_filename (Packet.new .DirectStartProgram)
    (Packet.new .DirectStartProgram) (Packet.new .DirectStartProgram)
    [97, 95, 102, 105, 108, 101] (List.replicate 20 97) [0xC3]
    (by decide) (by decide) (by decide) (by decide) (by decide)
  refine ⟨?_, ?_, ?_⟩
  · rw [h.1]; decide
  · rw [h.2.2.1]
  · rw [h.2.2.2]

/-- Counterexample to C3: `read_filename` does not strip the trailing
NUL padding and decode the rest — it truncates at the FIRST NUL byte.
On a 20-byte window `a NUL b` followed by 17 NULs, stripping trailing
NULs leaves the (validly encoded) bytes `a NUL b`, but the code returns
just `a`. -/
theorem c3_read_filename_counterexample :
    (Packet.read_filename
      { typ := .Reply, opcode := .DirectGetCurrProgram,
        data := [97, 0, 98] ++ List.replicate 17 0, data_offset := 0 }).1 =
      .ok [97] ∧
    stripTrailingZeros (([97, 0, 98] ++ List.replicate 17 0).take 20) =
      [97, 0, 98] ∧
    ([97] : List Nat) ≠ [97, 0, 98] ∧
    utf8Valid [97, 0, 98] = true := by
  decide

/-- C3 as amended: with at least 20 bytes remaining, `read_filename`
consumes exactly 20 bytes (advancing the cursor by 20) and decodes the
bytes of that window strictly before its first NUL byte as text,
failing on invalid encoding (cursor still advanced); with fewer than 20
bytes remaining it fails with a parse failure without advancing the
cursor. -/
theorem c3_read_filename_amended (p q r : Packet)
    (hp : p.data_offset + 20 ≤ p.data.length)
    (hpv : utf8Valid (filenameBytes p) = true)
    (hr : r.data_offset + 20 ≤ r.data.length)
    (hrv : utf8Valid (filenameBytes r) = false)
    (hq : q.data.length < q.data_offset + 20) :
    p.read_filename =
      (.ok (filenameBytes p), { p with data_offset := p.data_offset + 20 }) ∧
    r.read_filename =
      (.error .InvalidString, { r with data_offset := r.data_offset + 20 }) ∧
    q.read_filename = (.error (.Parse "Requested slice too long"), q) := by
  refine ⟨?_, ?_, ?_⟩
  · simp [Packet.read_filename, FILENAME_LEN, filenameBytes,
      Nat.not_lt.mpr hp] at hpv ⊢
    simp [hpv]
  · simp [Packet.read_filename, FILENAME_LEN, filenameBytes,
      Nat.not_lt.mpr hr] at hrv ⊢
    simp [hrv]
  · simp only [Packet.read_filename, FILENAME_LEN]
    rw [if_pos hq]

/-- Witness for C3 (amended) at concrete packets: a well-formed
`a_file` window decodes to `a_file` with the cursor advanced by 20, an
invalid-UTF-8 window fails with the encoding error, and an empty payload
fails with the bounds parse error, cursor untouched. -/
theorem c3_read_filename_amended_witness :
    (Packet.read_filename
      { typ := .Reply, opcode := .DirectGetCurrProgram,
        data := [97, 95, 102, 105, 108, 101] ++ List.replicate 14 0,
        data_offset := 0 }).1 = .ok [97, 95, 102, 105, 108, 101] ∧
    (Packet.read_filename
      { typ := .Reply, opcode := .DirectGetCurrProgram,
        data := [255] ++ List.replicate 19 0, data_offset := 0 }) =
      (.error .InvalidString,
        { typ := .Reply, opcode := .DirectGetCurrProgram,
          data := [255] ++ List.replicate 19 0, data_offset := 20 }) ∧
    (Packet.read_filename
      { typ := .Reply, opcode := .DirectGetCurrProgram, data := [],
        data_offset := 0 }) =
      (.error (.Parse "Requested slice too long"),
        { typ := .Reply, opcode := .DirectGetCurrProgram, data := [],
          data_offset := 0 }) := by
  have h := c3_read_filename_amended
    { typ := .Reply, opcode := .DirectGetCurrProgram,
      data := [97, 95, 102, 105, 108, 101] ++ List.replicate 14 0,
      data_offset := 0 }
    { typ := .Reply, opcode := .DirectGetCurrProgram, data := [],
      data_offset := 0 }
    { typ := .Reply, opcode := .DirectGetCurrProgram,
      data := [255] ++ List.replicate 19 0, data_offset := 0 }
    (by decide) (by decide) (by decide) (by decide) (by decide)
  refine ⟨?_, ?_, ?_⟩
  · rw [h.1]; decide
  · rw [h.2.1]
  · rw [h.2.2]

/-- C8: bounded-string round trip.  For a string `s` with
`s.length + 1 ≤ N` that does not end in a NUL byte, `push_str s N`
appends exactly `N` bytes (`s` followed by NUL padding) and succeeds;
`push_str` fails with a serialisation error when the text plus
terminator exceeds the bound; and `read_string N` on those `N` bytes
consumes exactly `N` bytes, strips all trailing NULs and returns `s`. -/
theorem c8_bounded_string_round_trip (p q : Packet) (s t : List Nat)
    (N M : Nat) (ty : PacketType) (op : Opcode)
    (hlen : s.length + 1 ≤ N)
    (hlast : s.getLastD 1 ≠ 0)
    (hvalid : utf8Valid s = true)
    (hbad : M < t.length + 1) :
    p.push_str s N =
      (.ok (), { p with
        data := p.data ++ s ++ List.replicate (N - s.length) 0 }) ∧
    (p.push_str s N).2.data.length = p.data.length + N ∧
    q.push_str t M = (.error (.Serialise "String too long"), q) ∧
    Packet.read_string
      { typ := ty, opcode := op, data := s ++ List.replicate (N - s.length) 0,
        data_offset := 0 } N =
      (.ok s,
        { typ := ty, opcode := op,
          data := s ++ List.replicate (N - s.length) 0, data_offset := N }) := by
  have hnot : ¬ (N < s.length + 1) := by omega
  have hdlen : (s ++ List.replicate (N - s.length) 0).length = N := by
    simp; omega
  refine ⟨?_, ?_, ?_, ?_⟩
  · simp [Packet.push_str, hnot]
  · simp [Packet.push_str, hnot]
    omega
  · simp [Packet.push_str, hbad]
  · have hnb : ¬ ((s ++ List.replicate (N - s.length) 0).length < 0 + N) := by
      omega
    have hstrip := stripTrailingZeros_append_replicate s (N - s.length) hlast
    have hc : ¬ (s.length + (N - s.length) < N) := by omega
    simp [Packet.read_string, Packet.read_slice, hc,
      List.take_of_length_le hdlen.le, hstrip, hvalid]

/-- Witness for C8, the brick-name example: pushing `test` with bound 15
appends `test` plus 11 NULs, a 15-byte name with bound 15 is rejected,
and decoding the padded field returns `test`. -/
theorem c8_bounded_string_round_trip_witness :
    ((Packet.new .SystemSetbrickname).push_str [116, 101, 115, 116] 15).2.data =
      [116, 101, 115, 116] ++ List.replicate 11 0 ∧
    ((Packet.new .SystemSetbrickname).push_str (List.replicate 15 97) 15).1 =
      .error (.Serialise "String too long") ∧
    (Packet.read_string
      { typ := .System, opcode := .SystemSetbrickname,
        data := [116, 101, 115, 116] ++ List.replicate 11 0,
        data_offset := 0 } 15).1 = .ok [116, 101, 115, 116] := by
  have h := c8_bounded_string_round_trip (Packet.new .SystemSetbrickname)
    (Packet.new .SystemSetbrickname) [116, 101, 115, 116]
    (List.replicate 15 97) 15 15 .System .SystemSetbrickname
    (by decide) (by decide) (by decide) (by decide)
  refine ⟨?_, ?_, ?_⟩
  · rw [h.1]; decide
  · rw [h.2.2.1]
  · show (Packet.read_string
      { typ := .System, opcode := .SystemSetbrickname,
        data := [116, 101, 115, 116] ++
          List.replicate (15 - [116, 101, 115, 116].length) 0,
        data_offset := 0 } 15).1 = .ok [116, 101, 115, 116]
    rw [h.2.2.2]

/-- C9: multi-byte numeric reads are repeated single-byte reads and
leave earlier bytes consumed when a later byte is missing — with one
byte remaining, `read_u16`/`read_i16` fail with the cursor advanced by
one, and with three bytes remaining `read_u32`/`read_i32` fail with the
cursor advanced by three — whereas `read_slice` and `read_filename`
check bounds up front and leave the cursor unchanged on failure. -/
theorem c9_failed_read_cursor_inconsistency (p p3 q r : Packet) (n : Nat)
    (hp : p.data.length = p.data_offset + 1)
    (hp3 : p3.data.length = p3.data_offset + 3)
    (hq : q.data.length < q.data_offset + n)
    (hr : r.data.length < r.data_offset + 20) :
    (p.read_u16.1 = .error (.Parse "Reached end of input") ∧
      p.read_u16.2.data_offset = p.data_offset + 1) ∧
    (p.read_i16.1 = .error (.Parse "Reached end of input") ∧
      p.read_i16.2.data_offset = p.data_offset + 1) ∧
    (p3.read_u32.1 = .error (.Parse "Reached end of input") ∧
      p3.read_u32.2.data_offset = p3.data_offset + 3) ∧
    (p3.read_i32.1 = .error (.Parse "Reached end of input") ∧
      p3.read_i32.2.data_offset = p3.data_offset + 3) ∧
    q.read_slice n = (.error (.Parse "Requested slice too long"), q) ∧
    r.read_filename = (.error (.Parse "Requested slice too long"), r) := by
  have t1 := read_u8_of_lt p (by omega)
  have t2 := read_u8_of_ge { p with data_offset := p.data_offset + 1 }
    (by simp; omega)
  have s1 := read_u8_of_lt p3 (by omega)
  have s2 := read_u8_of_lt { p3 with data_offset := p3.data_offset + 1 }
    (by simp; omega)
  have s3 := read_u8_of_lt { p3 with data_offset := p3.data_offset + 1 + 1 }
    (by simp; omega)
  have s4 := read_u8_of_ge
    { p3 with data_offset := p3.data_offset + 1 + 1 + 1 } (by simp; omega)
  refine ⟨⟨?_, ?_⟩, ⟨?_, ?_⟩, ⟨?_, ?_⟩, ⟨?_, ?_⟩, ?_, ?_⟩
  · simp [Packet.read_u16, t1, t2]
  · simp [Packet.read_u16, t1, t2]
  · simp [Packet.read_i16, t1, t2]
  · simp [Packet.read_i16, t1, t2]
  · simp [Packet.read_u32, s1, s2, s3, s4]
  · simp [Packet.read_u32, s1, s2, s3, s4]
  · simp [Packet.read_i32, s1, s2, s3, s4]
  · simp [Packet.read_i32, s1, s2, s3, s4]
  · simp only [Packet.read_slice]
    rw [if_pos hq]
  · simp only [Packet.read_filename, FILENAME_LEN]
    rw [if_pos hr]

/-- Witness for C9 at concrete packets: one byte remaining for the
16-bit reads, three for the 32-bit reads, an empty payload for
`read_slice 1` and `read_filename`. -/
theorem c9_failed_read_cursor_inconsistency_witness :
    ((Packet.mk .Reply .DirectGetBattLevel [5] 0).read_u16.1 =
      .error (.Parse "Reached end of input") ∧
     (Packet.mk .Reply .DirectGetBattLevel [5] 0).read_u16.2.data_offset = 1) ∧
    ((Packet.mk .Reply .DirectGetBattLevel [5] 0).read_i16.1 =
      .error (.Parse "Reached end of input") ∧
     (Packet.mk .Reply .DirectGetBattLevel [5] 0).read_i16.2.data_offset = 1) ∧
    ((Packet.mk .Reply .DirectKeepAlive [1, 2, 3] 0).read_u32.1 =
      .error (.Parse "Reached end of input") ∧
     (Packet.mk .Reply .DirectKeepAlive [1, 2, 3] 0).read_u32.2.data_offset = 3) ∧
    ((Packet.mk .Reply .DirectKeepAlive [1, 2, 3] 0).read_i32.1 =
      .error (.Parse "Reached end of input") ∧
     (Packet.mk .Reply .DirectKeepAlive [1, 2, 3] 0).read_i32.2.data_offset = 3) ∧
    (Packet.mk .Reply .DirectLsRead [] 0).read_slice 1 =
      (.error (.Parse "Requested slice too long"),
        Packet.mk .Reply .DirectLsRead [] 0) ∧
    (Packet.mk .Reply .DirectGetCurrProgram [] 0).read_filename =
      (.error (.Parse "Requested slice too long"),
        Packet.mk .Reply .DirectGetCurrProgram [] 0) := by
  exact c9_failed_read_cursor_inconsistency
    (Packet.mk .Reply .DirectGetBattLevel [5] 0)
    (Packet.mk .Reply .DirectKeepAlive [1, 2, 3] 0)
    (Packet.mk .Reply .DirectLsRead [] 0)
    (Packet.mk .Reply .DirectGetCurrProgram [] 0) 1
    (by decide) (by decide) (by decide) (by decide)

/-- C7: the stream (Bluetooth) transport's `recv` first reads exactly 2
bytes as a little-endian length `n`, then reads exactly `n` payload
bytes and returns them as the filled subslice; when the declared length
exceeds the caller's buffer it fails with a parse failure after the two
length bytes, consuming no payload bytes. -/
theorem c7_bluetooth_recv_length_framing (b0 b1 c0 c1 : Nat)
    (rest rest2 : List Nat) (bufLen bufLen2 : Nat)
    (hfits : u16FromLeBytes b0 b1 ≤ bufLen)
    (havail : u16FromLeBytes b0 b1 ≤ rest.length)
    (hover : bufLen2 < u16FromLeBytes c0 c1) :
    Bluetooth.recv (b0 :: b1 :: rest) bufLen =
      (.ok (rest.take (u16FromLeBytes b0 b1)),
        rest.drop (u16FromLeBytes b0 b1)) ∧
    (rest.take (u16FromLeBytes b0 b1)).length = u16FromLeBytes b0 b1 ∧
    Bluetooth.recv (c0 :: c1 :: rest2) bufLen2 =
      (.error (.Parse "Data too long for buffer"), rest2) := by
  have h2 : ¬ (rest.length + 1 + 1 < 2) := by omega
  have h2b : ¬ (rest2.length + 1 + 1 < 2) := by omega
  refine ⟨?_, ?_, ?_⟩
  · have hnav : ¬ (rest.length < u16FromLeBytes b0 b1) := by omega
    simp [Bluetooth.recv, readExact, h2, Nat.not_lt.mpr hfits, hnav]
  · simp [List.length_take]
    omega
  · simp [Bluetooth.recv, readExact, h2b, hover]

/-- Witness for C7: a stream declaring length 3 with a 64-byte buffer
returns the 3 payload bytes; a stream declaring length 256 with a
64-byte buffer fails with the parse error, leaving the stream right
after the length bytes. -/
theorem c7_bluetooth_recv_length_framing_witness :
    Bluetooth.recv [3, 0, 7, 8, 9] 64 = (.ok [7, 8, 9], []) ∧
    Bluetooth.recv [0, 1] 64 = (.error (.Parse "Data too long for buffer"), []) := by
  have h := c7_bluetooth_recv_length_framing 3 0 0 1 [7, 8, 9] [] 64 64
    (by decide) (by decide) (by decide)
  exact ⟨h.1, h.2.2⟩

/-- Counterexample to C5: a well-formed reply whose opcode
(`SystemSetbrickname`, 0x98) differs from the request's
(`DirectGetBattLevel`, 0x0B) but whose status byte is 0x87
(file-not-found) makes `send_recv` fail with the device error, not with
`ReplyMismatch`, because the status byte is checked before opcode
correlation. -/
theorem c5_send_recv_counterexample :
    Nxt.send_recv (Packet.new .DirectGetBattLevel) [0x02, 0x98, 0x87] =
      .error (.Device .FileNotFound) ∧
    Error.Device .FileNotFound ≠ Error.ReplyMismatch ∧
    Opcode.fromU8 0x98 = some .SystemSetbrickname ∧
    Opcode.SystemSetbrickname ≠ Opcode.DirectGetBattLevel := by
  decide

/-- C5 as amended: `send_recv` never returns data from a reply whose
opcode differs from the request's — every successful `send_recv` carries
the request's opcode.  A mismatched well-formed reply whose status byte
is the success value 0x00 fails with `ReplyMismatch`; a reply carrying a
recognised non-success status fails with that device error instead,
because the status byte is validated before opcode correlation. -/
theorem c5_send_recv_mismatch_amended (req oc : Opcode) (t : PacketType)
    (e : DeviceError) (rest buf : List Nat) (pkt : Packet)
    (hne : oc ≠ req)
    (he : e ≠ .None)
    (hok : Nxt.send_recv (Packet.new req) buf = .ok pkt) :
    pkt.opcode = req ∧
    Nxt.send_recv (Packet.new req) (t.toU8 :: oc.toU8 :: 0 :: rest) =
      .error .ReplyMismatch ∧
    Nxt.send_recv (Packet.new req) (t.toU8 :: oc.toU8 :: e.toU8 :: rest) =
      .error (.Device e) := by
  refine ⟨?_, ?_, ?_⟩
  · have h1 : Nxt.recv buf req = .ok pkt := hok
    unfold Nxt.recv at h1
    split at h1
    · simp at h1
    · split at h1
      · simp at h1
      · split at h1
        · rename_i hco
          injection h1 with h
          subst h
          exact hco
        · simp at h1
  · show Nxt.recv (t.toU8 :: oc.toU8 :: 0 :: rest) req = .error .ReplyMismatch
    rw [Nxt.recv_cons]
    simp [DeviceError.fromU8, DeviceError.error, hne]
  · show Nxt.recv (t.toU8 :: oc.toU8 :: e.toU8 :: rest) req =
      .error (.Device e)
    rw [Nxt.recv_cons, deviceError_fromU8_toU8]
    simp [DeviceError.error_of_ne_none e he]

/-- Witness for C5 (amended): a matching battery-level reply with
success status yields a packet carrying the request opcode; a
`SystemSetbrickname` reply with success status gives `ReplyMismatch`;
the same reply with status 0x87 gives the file-not-found device
error. -/
theorem c5_send_recv_mismatch_amended_witness :
    (Packet.mk .Reply .DirectGetBattLevel [2, 11, 0] 3).opcode =
      .DirectGetBattLevel ∧
    Nxt.send_recv (Packet.new .DirectGetBattLevel)
      [(PacketType.Reply).toU8, (Opcode.SystemSetbrickname).toU8, 0] =
      .error .ReplyMismatch ∧
    Nxt.send_recv (Packet.new .DirectGetBattLevel)
      [(PacketType.Reply).toU8, (Opcode.SystemSetbrickname).toU8,
        (DeviceError.FileNotFound).toU8] = .error (.Device .FileNotFound) := by
  exact c5_send_recv_mismatch_amended .DirectGetBattLevel .SystemSetbrickname
    .Reply .FileNotFound [] [2, 11, 0]
    (Packet.mk .Reply .DirectGetBattLevel [2, 11, 0] 3)
    (by decide) (by decide) (by decide)

/-- Counterexample to C6: after a successful `send_recv` the returned
packet's cursor sits PAST the status byte (offset 3; the status byte is
at offset 2 of the retained buffer), not at it — `recv` consumes the
status byte itself via `check_status`, and the caller goes on to read
the data fields (here the u16 battery level 11) directly. -/
theorem c6_send_recv_counterexample :
    Nxt.send_recv (Packet.new .DirectGetBattLevel) [2, 11, 0, 11, 0] =
      .ok (Packet.mk .Reply .DirectGetBattLevel [2, 11, 0, 11, 0] 3) ∧
    (Packet.mk .Reply .DirectGetBattLevel [2, 11, 0, 11, 0] 3).data_offset =
      3 ∧
    (Packet.mk .Reply .DirectGetBattLevel [2, 11, 0, 11, 0] 3).data_offset ≠
      2 ∧
    ((Packet.mk .Reply .DirectGetBattLevel [2, 11, 0, 11, 0] 3).read_u16).1 =
      .ok 11 := by
  decide

/-- C6 as amended: `send_recv` transmits the packet, receives exactly
one reply, validates and CONSUMES the status byte (failing on
non-success), then validates opcode correlation, and returns the reply
with its cursor positioned just past the status byte, so the caller
reads the reply's data fields directly. -/
theorem c6_send_recv_amended (t : PacketType) (req : Opcode)
    (rest : List Nat) :
    Nxt.send_recv (Packet.new req) (t.toU8 :: req.toU8 :: 0 :: rest) =
      .ok (Packet.mk t req (t.toU8 :: req.toU8 :: 0 :: rest) 3) ∧
    (Packet.mk t req (t.toU8 :: req.toU8 :: 0 :: rest) 3).data.drop
      (Packet.mk t req (t.toU8 :: req.toU8 :: 0 :: rest) 3).data_offset =
      rest := by
  constructor
  · show Nxt.recv (t.toU8 :: req.toU8 :: 0 :: rest) req = _
    rw [Nxt.recv_cons]
    simp [DeviceError.fromU8, DeviceError.error]
  · rfl
